import Mathlib

/-!
Shallow embedding of the empire ECS scheduler core: the Scheduler facade and
ecsProcessManager from scheduler/ecs/ecs.go, and the ELBManager from the lb
package. Remote backends are modelled as explicit response data; the calls a
function makes are recorded in an explicit trace.
-/

namespace Empire

/-- Go errors as this code observes them: either an awserr.Error carrying a
message, or any other (non-aws) error. -/
inductive GoErr where
  | awsErr (message : String)
  | otherErr (message : String)
deriving DecidableEq

/-- scheduler.PortMap; the Host and Container fields are int64 pointers,
modelled as Option. -/
structure PortMap where
  host : Option Int
  container : Option Int
deriving DecidableEq

/-- scheduler.Process. The Go map Env is modelled as the association list
produced by iterating the map (keys unique); Type is named ptype here. -/
structure Process where
  ptype : String
  command : String
  env : List (String × String)
  image : String
  cpuShares : Nat
  memoryLimit : Nat
  instances : Nat
  ports : List PortMap
  loadBalancer : String
deriving DecidableEq

/-- scheduler.App: an id and the ordered list of declared processes. -/
structure App where
  id : String
  processes : List Process
deriving DecidableEq

/-- processTypes (ecs.go 587-595) builds the set of process type names as the
keys of a Go map; modelled as a duplicate-free list of the type names. -/
def processTypes (processes : List Process) : List String :=
  (processes.map (fun p => p.ptype)).dedup

/-- diffProcessTypes (ecs.go 572-585): the process types present in old and
absent from new. -/
def diffProcessTypes (old new : List Process) : List String :=
  (processTypes old).filter (fun t => decide (t ∉ processTypes new))

/-- A process value with the given type and zero values for every other
field. -/
def procOfType (t : String) : Process :=
  { ptype := t, command := "", env := [], image := "", cpuShares := 0,
    memoryLimit := 0, instances := 0, ports := [], loadBalancer := "" }

theorem mem_processTypes (ps : List Process) (t : String) :
    t ∈ processTypes ps ↔ ∃ p ∈ ps, p.ptype = t := by
  simp [processTypes, List.mem_dedup, List.mem_map]

theorem mem_diffProcessTypes (old new : List Process) (t : String) :
    t ∈ diffProcessTypes old new ↔
      ((∃ p ∈ old, p.ptype = t) ∧ ¬ ∃ p ∈ new, p.ptype = t) := by
  rw [diffProcessTypes, List.mem_filter, decide_eq_true_iff,
    mem_processTypes, mem_processTypes]

/-- C1: the removal set computed by diffProcessTypes contains exactly the
process types occurring in old and not occurring in new; in particular for
old types web, worker, clock and new types web, worker it is exactly
the singleton clock. -/
theorem C1_diffProcessTypes_exact :
    (∀ (old new : List Process) (t : String),
      t ∈ diffProcessTypes old new ↔
        ((∃ p ∈ old, p.ptype = t) ∧ ¬ ∃ p ∈ new, p.ptype = t))
    ∧ diffProcessTypes
        [procOfType "web", procOfType "worker", procOfType "clock"]
        [procOfType "web", procOfType "worker"] = ["clock"] :=
  ⟨mem_diffProcessTypes, by decide⟩

/-- C1 witness: an instance of the membership characterization at the
concrete diff scenario. -/
theorem C1_diffProcessTypes_exact_witness :
    "clock" ∈ diffProcessTypes
      [procOfType "web", procOfType "worker", procOfType "clock"]
      [procOfType "web", procOfType "worker"] :=
  (C1_diffProcessTypes_exact.1 _ _ _).mpr (by decide)

/-! Scheduler.Submit (ecs.go 187-207), modelled over an abstract
ProcessManager backend. The backend is given by the responses it would
return; submit records every call it makes in a trace. -/

/-- One call Submit makes through its ProcessManager. -/
inductive SubmitEvent where
  | listCall
  | create (ptype : String)
  | remove (ptype : String)
deriving DecidableEq

/-- The ProcessManager as Submit sees it: the result of Processes, and the
error (if any) each CreateProcess and RemoveProcess call would return. -/
structure SubmitBackend where
  processesResult : Except GoErr (List Process)
  createResult : Process → Option GoErr
  removeResult : String → Option GoErr

/-- The CreateProcess loop of Submit: calls in declaration order, stopping at
the first error; returns the calls made and the error, if any. -/
def createLoop (f : Process → Option GoErr) : List Process → List SubmitEvent × Option GoErr
  | [] => ([], none)
  | p :: ps =>
    match f p with
    | some e => ([SubmitEvent.create p.ptype], some e)
    | none =>
      let r := createLoop f ps
      (SubmitEvent.create p.ptype :: r.1, r.2)

/-- The RemoveProcess loop of Submit over the diffed types, stopping at the
first error. -/
def removeLoop (f : String → Option GoErr) : List String → List SubmitEvent × Option GoErr
  | [] => ([], none)
  | t :: ts =>
    match f t with
    | some e => ([SubmitEvent.remove t], some e)
    | none =>
      let r := removeLoop f ts
      (SubmitEvent.remove t :: r.1, r.2)

/-- Scheduler.Submit (ecs.go 187-207): list current processes, create every
declared process in order, then remove each type in old minus new. Returns
the error (none on success) and the trace of backend calls made. -/
def submit (b : SubmitBackend) (app : App) : Option GoErr × List SubmitEvent :=
  match b.processesResult with
  | Except.error e => (some e, [SubmitEvent.listCall])
  | Except.ok old =>
    let c := createLoop b.createResult app.processes
    match c.2 with
    | some e => (some e, SubmitEvent.listCall :: c.1)
    | none =>
      let r := removeLoop b.removeResult (diffProcessTypes old app.processes)
      (r.2, SubmitEvent.listCall :: c.1 ++ r.1)

theorem createLoop_ok (f : Process → Option GoErr) (ps : List Process)
    (h : ∀ p ∈ ps, f p = none) :
    createLoop f ps = (ps.map (fun p => SubmitEvent.create p.ptype), none) := by
  induction ps with
  | nil => rfl
  | cons p ps ih =>
    have hp : f p = none := h p (List.mem_cons_self p ps)
    have hrest : ∀ q ∈ ps, f q = none := fun q hq => h q (List.mem_cons_of_mem p hq)
    simp [createLoop, hp, ih hrest]

theorem createLoop_fails (f : Process → Option GoErr) (pre : List Process)
    (p : Process) (post : List Process) (e : GoErr)
    (hpre : ∀ q ∈ pre, f q = none) (hp : f p = some e) :
    createLoop f (pre ++ p :: post) =
      (pre.map (fun q => SubmitEvent.create q.ptype) ++ [SubmitEvent.create p.ptype],
        some e) := by
  induction pre with
  | nil => simp [createLoop, hp]
  | cons q pre ih =>
    have hq : f q = none := hpre q (List.mem_cons_self q pre)
    have hrest : ∀ r ∈ pre, f r = none := fun r hr => hpre r (List.mem_cons_of_mem q hr)
    simp [createLoop, hq, ih hrest]

theorem removeLoop_ok (f : String → Option GoErr) (ts : List String)
    (h : ∀ t ∈ ts, f t = none) :
    removeLoop f ts = (ts.map SubmitEvent.remove, none) := by
  induction ts with
  | nil => rfl
  | cons t ts ih =>
    have ht : f t = none := h t (List.mem_cons_self t ts)
    have hrest : ∀ s ∈ ts, f s = none := fun s hs => h s (List.mem_cons_of_mem t hs)
    simp [removeLoop, ht, ih hrest]

/-- C2: Submit first lists the provisioned processes, then creates every
declared process in declaration order, and only afterwards removes each
previously provisioned type absent from the new declaration; when a
CreateProcess call fails, Submit returns that error at once, makes no
removal calls and no further create calls, and undoes nothing. -/
theorem C2_submit_order_and_failfast (b : SubmitBackend) (app : App)
    (old : List Process) (hp : b.processesResult = Except.ok old) :
    ((∀ p ∈ app.processes, b.createResult p = none) →
      (∀ t, b.removeResult t = none) →
      submit b app =
        (none, SubmitEvent.listCall ::
          app.processes.map (fun p => SubmitEvent.create p.ptype) ++
          (diffProcessTypes old app.processes).map SubmitEvent.remove))
    ∧ (∀ (pre : List Process) (p : Process) (post : List Process) (e : GoErr),
        app.processes = pre ++ p :: post →
        (∀ q ∈ pre, b.createResult q = none) →
        b.createResult p = some e →
        submit b app =
          (some e, SubmitEvent.listCall ::
            (pre.map (fun q => SubmitEvent.create q.ptype) ++
              [SubmitEvent.create p.ptype]))) := by
  constructor
  · intro hc hr
    have h1 := createLoop_ok b.createResult app.processes hc
    have h2 := removeLoop_ok b.removeResult (diffProcessTypes old app.processes)
      (fun t _ => hr t)
    simp [submit, hp, h1, h2]
  · intro pre p post e happ hpre hfail
    have h1 := createLoop_fails b.createResult pre p post e hpre hfail
    simp [submit, hp, happ, h1]

/-- C2 witness: the theorem applied to a concrete backend and app, in both
the all-success case and the case where the second create fails. -/
theorem C2_submit_order_and_failfast_witness :
    (submit
      { processesResult := Except.ok [procOfType "web", procOfType "clock"],
        createResult := fun _ => none,
        removeResult := fun _ => none }
      { id := "acme", processes := [procOfType "web", procOfType "worker"] } =
      (none, [SubmitEvent.listCall, SubmitEvent.create "web",
        SubmitEvent.create "worker", SubmitEvent.remove "clock"]))
    ∧ (submit
      { processesResult := Except.ok [procOfType "web", procOfType "clock"],
        createResult := fun p =>
          if p.ptype = "worker" then some (GoErr.otherErr "boom") else none,
        removeResult := fun _ => none }
      { id := "acme", processes := [procOfType "web", procOfType "worker"] } =
      (some (GoErr.otherErr "boom"),
        [SubmitEvent.listCall, SubmitEvent.create "web", SubmitEvent.create "worker"])) := by
  constructor
  · have h := (C2_submit_order_and_failfast
      { processesResult := Except.ok [procOfType "web", procOfType "clock"],
        createResult := fun _ => none,
        removeResult := fun _ => none }
      { id := "acme", processes := [procOfType "web", procOfType "worker"] }
      [procOfType "web", procOfType "clock"] rfl).1
      (by intro p _; rfl) (fun t => rfl)
    simpa using h
  · have h := (C2_submit_order_and_failfast
      { processesResult := Except.ok [procOfType "web", procOfType "clock"],
        createResult := fun p =>
          if p.ptype = "worker" then some (GoErr.otherErr "boom") else none,
        removeResult := fun _ => none }
      { id := "acme", processes := [procOfType "web", procOfType "worker"] }
      [procOfType "web", procOfType "clock"] rfl).2
      [procOfType "web"] (procOfType "worker") [] (GoErr.otherErr "boom")
      rfl (by decide) (by decide)
    simpa using h

/-! ecsProcessManager.RemoveProcess (ecs.go 434-450) and the noService
error classification (ecs.go 518-538). -/

/-- The known backend message variants that mean the service does not
exist. -/
def notFoundMessages : List String :=
  ["Service was not ACTIVE.",
   "Could not find returned type com.amazon.madison.cmb#CMServiceNotActiveException in model",
   "Could not find returned type com.amazon.madison.cmb#CMServiceNotFoundException in model",
   "Service not found."]

/-- noService (ecs.go 518-538): true exactly when the error is an
awserr.Error whose message is one of the known not-found variants. A nil
error or a non-aws error is not classified as not-found. -/
def noService : Option GoErr → Bool
  | some (GoErr.awsErr m) =>
    m == "Service was not ACTIVE." ||
    m == "Could not find returned type com.amazon.madison.cmb#CMServiceNotActiveException in model" ||
    m == "Could not find returned type com.amazon.madison.cmb#CMServiceNotFoundException in model" ||
    m == "Service not found."
  | _ => false

/-- The two backend calls RemoveProcess can make, in order. -/
inductive RemoveStep where
  | scaleToZero
  | deleteService
deriving DecidableEq

/-- The backend as RemoveProcess sees it: the error (if any) returned by
scaling the service to zero and by deleting the service. -/
structure RemoveBackend where
  scaleResult : Option GoErr
  deleteResult : Option GoErr

/-- ecsProcessManager.RemoveProcess (ecs.go 434-450): scale the service to
zero; a not-found error there is success (and no delete is attempted), any
other error is returned; then delete the service, a not-found error again
being success. Returns the error and the trace of backend calls made. -/
def removeProcess (b : RemoveBackend) : Option GoErr × List RemoveStep :=
  if noService b.scaleResult then (none, [RemoveStep.scaleToZero])
  else
    match b.scaleResult with
    | some e => (some e, [RemoveStep.scaleToZero])
    | none =>
      if noService b.deleteResult then
        (none, [RemoveStep.scaleToZero, RemoveStep.deleteService])
      else
        (b.deleteResult, [RemoveStep.scaleToZero, RemoveStep.deleteService])

theorem noService_none : noService none = false := rfl

/-- C3: RemoveProcess scales to zero and then deletes; a backend error on
either step that noService classifies as service-not-found (exactly the
known message variants on an aws error) yields no error, and any error not
so classified is returned unchanged. -/
theorem C3_removeProcess_idempotent (b : RemoveBackend) :
    (∀ e, noService (some e) = true ↔
      ∃ m, e = GoErr.awsErr m ∧ m ∈ notFoundMessages)
    ∧ (∀ e, b.scaleResult = some e → noService (some e) = true →
        (removeProcess b).1 = none)
    ∧ (∀ e, b.scaleResult = some e → noService (some e) = false →
        (removeProcess b).1 = some e)
    ∧ (b.scaleResult = none → ∀ e, b.deleteResult = some e →
        noService (some e) = true → (removeProcess b).1 = none)
    ∧ (b.scaleResult = none → ∀ e, b.deleteResult = some e →
        noService (some e) = false → (removeProcess b).1 = some e)
    ∧ (removeProcess b).2.head? = some RemoveStep.scaleToZero
    ∧ (b.scaleResult = none →
        (removeProcess b).2 = [RemoveStep.scaleToZero, RemoveStep.deleteService]) := by
  refine ⟨?_, ?_, ?_, ?_, ?_, ?_, ?_⟩
  · intro e
    cases e with
    | awsErr m =>
      simp [noService, notFoundMessages]
      tauto
    | otherErr m => simp [noService, notFoundMessages]
  · intro e he hns
    simp [removeProcess, he, hns]
  · intro e he hns
    simp [removeProcess, he, hns]
  · intro hs e he hns
    simp [removeProcess, hs, noService_none, he, hns]
  · intro hs e he hns
    simp [removeProcess, hs, noService_none, he, hns]
  · cases hs : b.scaleResult with
    | some e =>
      by_cases hns : noService (some e) = true
      · simp [removeProcess, hs, hns]
      · simp only [Bool.not_eq_true] at hns
        simp [removeProcess, hs, hns]
    | none =>
      by_cases hd : noService b.deleteResult = true
      · simp [removeProcess, hs, noService_none, hd]
      · simp only [Bool.not_eq_true] at hd
        simp [removeProcess, hs, noService_none, hd]
  · intro hs
    by_cases hd : noService b.deleteResult = true
    · simp [removeProcess, hs, noService_none, hd]
    · simp only [Bool.not_eq_true] at hd
      simp [removeProcess, hs, noService_none, hd]

/-- A backend whose scale call succeeds and whose delete call reports the
service missing. -/
def deleteMissingBackend : RemoveBackend :=
  { scaleResult := none, deleteResult := some (GoErr.awsErr "Service not found.") }

/-- C3 witness: at a backend whose delete call reports the service missing,
the theorem yields success; instantiated hypotheses are discharged by
computation. -/
theorem C3_removeProcess_idempotent_witness :
    (removeProcess deleteMissingBackend).1 = none :=
  (C3_removeProcess_idempotent deleteMissingBackend).2.2.2.1
    rfl (GoErr.awsErr "Service not found.") rfl (by decide)

/-! Task-definition translation: taskDefinitionInput (ecs.go 464-508) and
taskDefinitionToProcess (ecs.go 542-570). Go pointers are modelled as
Option; dereferencing a nil pointer is modelled as the Option result none
(a runtime panic in Go). Machine integers: Go uint and int64 are modelled
as Nat and Int with explicit reduction modulo 2 to the 64. -/

/-- Modulus of 64-bit machine integers. -/
def UINT64MOD : Nat := 2 ^ 64

/-- Go conversion int64(u) of a uint value: two-complement reinterpretation
of the low 64 bits. -/
def int64OfUint (n : Nat) : Int :=
  let r := n % UINT64MOD
  if r < 2 ^ 63 then (r : Int) else (r : Int) - (UINT64MOD : Int)

/-- Go conversion uint(i) of an int64 value. -/
def uintOfInt64 (i : Int) : Nat :=
  (i % (UINT64MOD : Int)).toNat

/-- Modelled from the spec: one megabyte in bytes, the unit the backend
stores memory in (constant MB of pkg/bytesize, which is not under src/). -/
def MB : Nat := 1024 * 1024

/-- safeString (ecs.go 510-516): dereference a string pointer, nil giving
the empty string. -/
def safeString : Option String → String
  | none => ""
  | some s => s

/-- ecs.KeyValuePair: Name and Value are string pointers. -/
structure KeyValuePair where
  name : Option String
  value : Option String
deriving DecidableEq

/-- ecs.PortMapping: HostPort and ContainerPort are int64 pointers. -/
structure PortMapping where
  hostPort : Option Int
  containerPort : Option Int
deriving DecidableEq

/-- ecs.ContainerDefinition, restricted to the fields this code reads and
writes; pointer fields are Option. -/
structure ContainerDefinition where
  name : Option String
  cpu : Option Int
  command : List (Option String)
  image : Option String
  essential : Option Bool
  memory : Option Int
  environment : List (Option KeyValuePair)
  portMappings : List PortMapping
deriving DecidableEq

/-- ecs.TaskDefinition, restricted to the container definitions. -/
structure TaskDefinition where
  containerDefinitions : List ContainerDefinition
deriving DecidableEq

/-- ecs.RegisterTaskDefinitionInput. -/
structure RegisterTaskDefinitionInput where
  family : Option String
  containerDefinitions : List ContainerDefinition
deriving DecidableEq

/-- Modelled from the spec: the shell-word tokenizer used to parse a command
string (the vendored mattn/go-shellwords parser is not under src/).
Whitespace separates words; single and double quotes group; a backslash
escapes the next character outside single quotes; an unterminated quote or
trailing escape is an error (none). State: remaining input, escaped flag,
single-quote flag, double-quote flag, current word (reversed), words so
far. -/
def shellwordsRun : List Char → Bool → Bool → Bool → List Char → List String →
    Option (List String)
  | [], escaped, sq, dq, buf, acc =>
    if escaped || sq || dq then none
    else if buf.isEmpty then some acc
    else some (acc ++ [String.mk buf.reverse])
  | c :: cs, escaped, sq, dq, buf, acc =>
    if escaped then shellwordsRun cs false sq dq (c :: buf) acc
    else if c = '\\' then
      if sq then shellwordsRun cs false sq dq (c :: buf) acc
      else shellwordsRun cs true sq dq buf acc
    else if c = ' ' ∨ c = '\t' ∨ c = '\n' ∨ c = '\r' then
      if sq ∨ dq then shellwordsRun cs false sq dq (c :: buf) acc
      else if buf.isEmpty then shellwordsRun cs false sq dq [] acc
      else shellwordsRun cs false sq dq [] (acc ++ [String.mk buf.reverse])
    else if c = '\'' then
      if dq then shellwordsRun cs false sq dq (c :: buf) acc
      else shellwordsRun cs false (!sq) dq buf acc
    else if c = '"' then
      if sq then shellwordsRun cs false sq dq (c :: buf) acc
      else shellwordsRun cs false sq (!dq) buf acc
    else shellwordsRun cs false sq dq (c :: buf) acc

/-- shellwords.Parse: split a command line into words, none on a malformed
line. -/
def shellwordsParse (s : String) : Option (List String) :=
  shellwordsRun s.data false false false [] []

/-- taskDefinitionInput (ecs.go 464-508): build the task-definition
registration input for a process; fails when the command does not parse. -/
def taskDefinitionInput (p : Process) : Except String RegisterTaskDefinitionInput :=
  match shellwordsParse p.command with
  | none => Except.error "invalid command line string"
  | some args =>
    Except.ok
      { family := some p.ptype,
        containerDefinitions :=
          [{ name := some p.ptype,
             cpu := some (int64OfUint p.cpuShares),
             command := args.map (fun s => some s),
             image := some p.image,
             essential := some true,
             memory := some (int64OfUint (p.memoryLimit / MB)),
             environment := p.env.map (fun kv => some ⟨some kv.1, some kv.2⟩),
             portMappings := p.ports.map (fun m => ⟨m.host, m.container⟩) }] }

/-- Go map update env[k] = v on an association-list model of the map:
replace the value if the key is present, otherwise append the binding. -/
def mapInsert (env : List (String × String)) (k v : String) : List (String × String) :=
  if env.any (fun kv => kv.1 == k) then
    env.map (fun kv => if kv.1 == k then (kv.1, v) else kv)
  else env ++ [(k, v)]

/-- One step of rebuilding the environment map: nil entries are skipped,
the rest inserted. -/
def envInsertStep (env : List (String × String)) (kvp : Option KeyValuePair) :
    List (String × String) :=
  match kvp with
  | none => env
  | some kvp => mapInsert env (safeString kvp.name) (safeString kvp.value)

/-- The environment map rebuilt by taskDefinitionToProcess. -/
def buildEnv (l : List (Option KeyValuePair)) : List (String × String) :=
  l.foldl envInsertStep []

/-- Dereference every element of a []*string; none models the nil-pointer
panic the Go loop would hit. -/
def derefList : List (Option String) → Option (List String)
  | [] => some []
  | none :: _ => none
  | some s :: rest => (derefList rest).map (fun l => s :: l)

/-- taskDefinitionToProcess (ecs.go 542-570): an error when there are no
container definitions, otherwise a process rebuilt from the first container
definition. The outer none models the nil-pointer panic on a missing
Command element, Cpu or Memory. -/
def taskDefinitionToProcess (td : TaskDefinition) : Option (Except String Process) :=
  match td.containerDefinitions with
  | [] => some (Except.error "task definition had no container definitions")
  | container :: _ =>
    match derefList container.command, container.cpu, container.memory with
    | some command, some cpu, some mem =>
      some (Except.ok
        { ptype := safeString container.name,
          command := String.intercalate " " command,
          env := buildEnv container.environment,
          image := "",
          cpuShares := uintOfInt64 cpu,
          memoryLimit := uintOfInt64 mem * MB % UINT64MOD,
          instances := 0,
          ports := [],
          loadBalancer := "" })
    | _, _, _ => none

/-- The round trip of C4: build the registration input from a process and
convert its container definitions back to a process; none when either
direction does not produce a process. -/
def taskDefRoundTrip (p : Process) : Option Process :=
  match taskDefinitionInput p with
  | Except.error _ => none
  | Except.ok input =>
    match taskDefinitionToProcess { containerDefinitions := input.containerDefinitions } with
    | some (Except.ok q) => some q
    | _ => none

theorem derefList_map_some (args : List String) :
    derefList (args.map (fun s => some s)) = some args := by
  induction args with
  | nil => rfl
  | cons a rest ih => simp [derefList, ih]

theorem envFold_of_fresh (l acc : List (String × String))
    (hfresh : ∀ kv ∈ l, acc.any (fun kv2 => kv2.1 == kv.1) = false)
    (hnd : (l.map Prod.fst).Nodup) :
    List.foldl envInsertStep acc
        (l.map (fun kv => some ⟨some kv.1, some kv.2⟩)) = acc ++ l := by
  induction l generalizing acc with
  | nil => simp
  | cons kv rest ih =>
    obtain ⟨k, v⟩ := kv
    have hk : acc.any (fun kv2 => kv2.1 == k) = false :=
      hfresh (k, v) (List.mem_cons_self _ _)
    have hstep : envInsertStep acc (some ⟨some k, some v⟩) = acc ++ [(k, v)] := by
      simp [envInsertStep, safeString, mapInsert, hk]
    have hnd' : (k :: rest.map Prod.fst).Nodup := by
      rw [List.map_cons] at hnd
      exact hnd
    have hnd2 : (rest.map Prod.fst).Nodup := (List.nodup_cons.mp hnd').2
    have hknotin : k ∉ rest.map Prod.fst := (List.nodup_cons.mp hnd').1
    have hfresh2 : ∀ kv2 ∈ rest, (acc ++ [(k, v)]).any (fun kv3 => kv3.1 == kv2.1) = false := by
      intro kv2 h2
      have h3 : acc.any (fun kv3 => kv3.1 == kv2.1) = false :=
        hfresh kv2 (List.mem_cons_of_mem _ h2)
      have h4 : k ≠ kv2.1 := by
        intro hEq
        exact hknotin (by
          rw [hEq]
          exact List.mem_map_of_mem Prod.fst h2)
      simp [List.any_append, h3, h4]
    calc List.foldl envInsertStep acc
          (((k, v) :: rest).map (fun kv => some ⟨some kv.1, some kv.2⟩))
        = List.foldl envInsertStep (acc ++ [(k, v)])
            (rest.map (fun kv => some ⟨some kv.1, some kv.2⟩)) := by
          simp [hstep]
      _ = (acc ++ [(k, v)]) ++ rest := ih (acc ++ [(k, v)]) hfresh2 hnd2
      _ = acc ++ ((k, v) :: rest) := by simp

theorem buildEnv_roundtrip (l : List (String × String))
    (hnd : (l.map Prod.fst).Nodup) :
    buildEnv (l.map (fun kv => some ⟨some kv.1, some kv.2⟩)) = l := by
  have := envFold_of_fresh l [] (by intro kv _; rfl) hnd
  simpa [buildEnv] using this

theorem uint_int64_roundtrip (n : Nat) (h : n < UINT64MOD) :
    uintOfInt64 (int64OfUint n) = n := by
  simp only [uintOfInt64, int64OfUint, UINT64MOD] at *
  split <;> omega

/-- The process the C4 round trip produces, spelled out: type and image as
taskDefinitionToProcess rebuilds them, command rejoined from its tokens,
environment rebuilt from the emitted pairs, integers through the 64-bit
conversions. -/
def roundTripResult (p : Process) (args : List String) : Process :=
  { ptype := p.ptype,
    command := String.intercalate " " args,
    env := buildEnv (p.env.map (fun kv => some ⟨some kv.1, some kv.2⟩)),
    image := "",
    cpuShares := uintOfInt64 (int64OfUint p.cpuShares),
    memoryLimit := uintOfInt64 (int64OfUint (p.memoryLimit / MB)) * MB % UINT64MOD,
    instances := 0,
    ports := [],
    loadBalancer := "" }

theorem taskDefRoundTrip_eq (p : Process) (args : List String)
    (hargs : shellwordsParse p.command = some args) :
    taskDefRoundTrip p = some (roundTripResult p args) := by
  simp only [taskDefRoundTrip, taskDefinitionInput, hargs, taskDefinitionToProcess,
    derefList_map_some, roundTripResult, safeString]

/-- A process whose command contains two consecutive spaces. -/
def spacedProc : Process :=
  { ptype := "web", command := "echo  hi", env := [], image := "", cpuShares := 0,
    memoryLimit := 0, instances := 0, ports := [], loadBalancer := "" }

/-- C4 counterexample: the round trip succeeds on the command with a double
space but does not return an equal Command, refuting the claim that the
round trip always yields an equal Command. -/
theorem C4_roundTrip_counterexample :
    (taskDefRoundTrip spacedProc).map Process.command ≠ some spacedProc.command
    ∧ taskDefRoundTrip spacedProc ≠ none := by
  decide

/-- C4 (amended): for every process whose command tokenizes (so
taskDefinitionInput succeeds), the round trip yields an equal Env and equal
CPUShares; the Command comes back as the single-space join of its shell-word
tokens, hence equal whenever the original command is such a join; the
MemoryLimit comes back truncated down to a whole number of megabytes, exact
precisely when the original is a multiple of one megabyte. -/
theorem C4_roundTrip_amended (p : Process) (args : List String)
    (hargs : shellwordsParse p.command = some args)
    (hcpu : p.cpuShares < UINT64MOD) (hmem : p.memoryLimit < UINT64MOD)
    (hkeys : (p.env.map Prod.fst).Nodup) :
    ∃ q, taskDefRoundTrip p = some q
      ∧ q.env = p.env
      ∧ q.cpuShares = p.cpuShares
      ∧ q.command = String.intercalate " " args
      ∧ (p.command = String.intercalate " " args → q.command = p.command)
      ∧ q.memoryLimit = p.memoryLimit / MB * MB
      ∧ (MB ∣ p.memoryLimit ↔ q.memoryLimit = p.memoryLimit) := by
  have hdiv : p.memoryLimit / MB < UINT64MOD :=
    lt_of_le_of_lt (Nat.div_le_self _ _) hmem
  have hmemRound : uintOfInt64 (int64OfUint (p.memoryLimit / MB)) = p.memoryLimit / MB :=
    uint_int64_roundtrip _ hdiv
  have hmul : p.memoryLimit / MB * MB % UINT64MOD = p.memoryLimit / MB * MB :=
    Nat.mod_eq_of_lt (lt_of_le_of_lt (Nat.div_mul_le_self _ _) hmem)
  refine ⟨roundTripResult p args, taskDefRoundTrip_eq p args hargs, ?_, ?_, ?_, ?_, ?_, ?_⟩
  · exact buildEnv_roundtrip p.env hkeys
  · exact uint_int64_roundtrip _ hcpu
  · rfl
  · intro hc
    exact hc.symm
  · show uintOfInt64 (int64OfUint (p.memoryLimit / MB)) * MB % UINT64MOD
      = p.memoryLimit / MB * MB
    rw [hmemRound, hmul]
  · have hval : (roundTripResult p args).memoryLimit = p.memoryLimit / MB * MB := by
      show uintOfInt64 (int64OfUint (p.memoryLimit / MB)) * MB % UINT64MOD
        = p.memoryLimit / MB * MB
      rw [hmemRound, hmul]
    rw [hval]
    constructor
    · intro hdvd
      exact Nat.div_mul_cancel hdvd
    · intro hEq
      exact hEq ▸ dvd_mul_left MB (p.memoryLimit / MB)

/-- A process on which the amended round trip can be evaluated. -/
def roundProc : Process :=
  { ptype := "web", command := "echo hi", env := [("A", "1"), ("B", "2")],
    image := "img", cpuShares := 256, memoryLimit := 2 * MB, instances := 2,
    ports := [], loadBalancer := "" }

/-- C4 witness: the amended theorem applied to a concrete process. -/
theorem C4_roundTrip_amended_witness :
    ∃ q, taskDefRoundTrip roundProc = some q
      ∧ q.env = roundProc.env
      ∧ q.cpuShares = roundProc.cpuShares
      ∧ q.command = String.intercalate " " ["echo", "hi"]
      ∧ (roundProc.command = String.intercalate " " ["echo", "hi"] →
          q.command = roundProc.command)
      ∧ q.memoryLimit = roundProc.memoryLimit / MB * MB
      ∧ (MB ∣ roundProc.memoryLimit ↔ q.memoryLimit = roundProc.memoryLimit) :=
  C4_roundTrip_amended roundProc ["echo", "hi"] (by decide) (by decide) (by decide)
    (by decide)

/-- C10: taskDefinitionToProcess fails with an error (and no process) on a
task definition without container definitions, and otherwise depends only on
the first container definition, ignoring the rest. -/
theorem C10_taskDefinitionToProcess_first (td : TaskDefinition) :
    (td.containerDefinitions = [] →
      taskDefinitionToProcess td =
        some (Except.error "task definition had no container definitions"))
    ∧ (∀ c rest, td.containerDefinitions = c :: rest →
        taskDefinitionToProcess td =
          taskDefinitionToProcess { containerDefinitions := [c] }) := by
  constructor
  · intro h
    simp [taskDefinitionToProcess, h]
  · intro c rest h
    simp only [taskDefinitionToProcess, h]

/-- A container definition with all pointer fields nil. -/
def nilContainerDef : ContainerDefinition :=
  { name := none, cpu := none, command := [], image := none, essential := none,
    memory := none, environment := [], portMappings := [] }

/-- C10 witness: the theorem applied to the empty task definition and to a
two-container task definition. -/
theorem C10_taskDefinitionToProcess_first_witness :
    taskDefinitionToProcess { containerDefinitions := [] } =
      some (Except.error "task definition had no container definitions")
    ∧ taskDefinitionToProcess
        { containerDefinitions := [nilContainerDef, nilContainerDef] } =
      taskDefinitionToProcess { containerDefinitions := [nilContainerDef] } :=
  ⟨(C10_taskDefinitionToProcess_first { containerDefinitions := [] }).1 rfl,
   (C10_taskDefinitionToProcess_first
      { containerDefinitions := [nilContainerDef, nilContainerDef] }).2
      nilContainerDef [nilContainerDef] rfl⟩

/-! The lb package ELBManager: CreateLoadBalancer, the listener
configuration elbListeners, tag filtering and the paginated LoadBalancers
listing. -/

/-- ELB scheme string for internal load balancers. -/
def schemeInternal : String := "internal"

/-- ELB scheme string for internet-facing load balancers. -/
def schemeExternal : String := "internet-facing"

/-- The fixed connection-draining timeout. -/
def defaultConnectionDrainingTimeout : Int := 30

/-- elb.Listener as this code sets it: the SSLCertificateId pointer is Option,
the fields always written are plain values. -/
structure Listener where
  instancePort : Int
  loadBalancerPort : Int
  protocol : String
  instanceProtocol : String
  sslCertificateId : Option String
deriving DecidableEq

/-- elbListeners (lb package): the HTTP listener on port 80, plus an HTTPS
listener on port 443 when certID is non-empty, both forwarding to the given
instance port. -/
def elbListeners (port : Int) (certID : String) : List Listener :=
  let listeners : List Listener :=
    [{ instancePort := port, loadBalancerPort := 80, protocol := "http",
       instanceProtocol := "http", sslCertificateId := none }]
  if certID ≠ "" then
    listeners ++
      [{ instancePort := port, loadBalancerPort := 443,
         sslCertificateId := some certID, protocol := "https",
         instanceProtocol := "http" }]
  else listeners

/-- CreateLoadBalancerOpts. -/
structure CreateLoadBalancerOpts where
  external : Bool
  instancePort : Int
  sslCert : String
  tags : List (String × String)
deriving DecidableEq

/-- The LoadBalancer model returned by the lb package. -/
structure LoadBalancer where
  name : String
  dnsName : String
  external : Bool
  sslCert : String
  instancePort : Int
  tags : List (String × String)
deriving DecidableEq

/-- The configuration of an ELBManager; freshName models the one name the
newName generator would produce for this creation. -/
structure ELBManager where
  internalSecurityGroupID : String
  externalSecurityGroupID : String
  internalSubnetIDs : List String
  externalSubnetIDs : List String
  freshName : String
deriving DecidableEq

/-- elb.CreateLoadBalancerInput as built by CreateLoadBalancer. -/
structure CreateLoadBalancerInput where
  listeners : List Listener
  loadBalancerName : String
  scheme : String
  securityGroups : List String
  subnets : List String
  tags : List (String × String)
deriving DecidableEq

/-- elb.ModifyLoadBalancerAttributesInput as built by CreateLoadBalancer. -/
structure ModifyAttributesInput where
  connectionDrainingEnabled : Bool
  connectionDrainingTimeout : Int
  crossZoneEnabled : Bool
  loadBalancerName : String
deriving DecidableEq

/-- One backend call CreateLoadBalancer makes. -/
inductive ELBCall where
  | createCall (input : CreateLoadBalancerInput)
  | modifyCall (input : ModifyAttributesInput)
deriving DecidableEq

/-- The ELB backend as CreateLoadBalancer sees it: the create call either
fails or returns the DNS name of the new load balancer; the
attribute-modification call either fails or succeeds. -/
structure ELBCreateBackend where
  createResult : Except GoErr String
  modifyResult : Option GoErr

/-- The request CreateLoadBalancer sends to the backend create call: scheme,
security group and subnets chosen by External, listeners from elbListeners,
a generated name, and the ownership tags. -/
def createLoadBalancerInput (m : ELBManager) (o : CreateLoadBalancerOpts) :
    CreateLoadBalancerInput :=
  let scheme := if o.external then schemeExternal else schemeInternal
  let sg := if o.external then m.externalSecurityGroupID else m.internalSecurityGroupID
  let subnets := if o.external then m.externalSubnetIDs else m.internalSubnetIDs
  { listeners := elbListeners o.instancePort o.sslCert,
    loadBalancerName := m.freshName,
    scheme := scheme,
    securityGroups := [sg],
    subnets := subnets,
    tags := o.tags }

/-- ELBManager.CreateLoadBalancer (lb package): create the ELB, then enable
connection draining and cross-zone balancing; a failure of either backend
call is returned and no load balancer value is produced. Returns the result
and the trace of backend calls made. -/
def createLoadBalancer (m : ELBManager) (b : ELBCreateBackend)
    (o : CreateLoadBalancerOpts) : Except GoErr LoadBalancer × List ELBCall :=
  let input := createLoadBalancerInput m o
  match b.createResult with
  | Except.error e => (Except.error e, [ELBCall.createCall input])
  | Except.ok dnsName =>
    let mi : ModifyAttributesInput :=
      { connectionDrainingEnabled := true,
        connectionDrainingTimeout := defaultConnectionDrainingTimeout,
        crossZoneEnabled := true,
        loadBalancerName := input.loadBalancerName }
    match b.modifyResult with
    | some e => (Except.error e, [ELBCall.createCall input, ELBCall.modifyCall mi])
    | none =>
      (Except.ok
        { name := input.loadBalancerName, dnsName := dnsName,
          external := o.external, sslCert := o.sslCert,
          instancePort := o.instancePort, tags := [] },
        [ELBCall.createCall input, ELBCall.modifyCall mi])

/-- containsTag (lb package): the tag list holds a tag with the same key and
value. -/
def containsTag (t : String × String) (tags : List (String × String)) : Bool :=
  tags.any (fun t2 => t.1 == t2.1 && t.2 == t2.2)

/-- containsTags (lb package): every tag of a occurs in b. -/
def containsTags (a : List (String × String)) (b : List (String × String)) : Bool :=
  a.all (fun t => containsTag t b)

/-- The listener data LoadBalancers reads from a described load balancer. -/
structure ListenerDescription where
  instancePort : Int
  sslCertificateId : Option String
deriving DecidableEq

/-- One described load balancer, joined with the tags DescribeTags reports
for its name (the backend returns one tag description per requested name;
names within a page are unique). -/
structure LBDescription where
  name : String
  dnsName : String
  scheme : String
  listenerDescriptions : List ListenerDescription
  tags : List (String × String)
deriving DecidableEq

/-- One DescribeLoadBalancers response: the described page and the
continuation marker. -/
structure Page where
  descriptions : List LBDescription
  nextMarker : Option String
deriving DecidableEq

/-- The instance port LoadBalancers extracts: the first listener, or zero
when there are no listeners. -/
def lbInstancePort (ls : List ListenerDescription) : Int :=
  match ls with
  | [] => 0
  | l :: _ => l.instancePort

/-- The SSL certificate LoadBalancers extracts: the last non-nil
SSLCertificateId over all listeners, or the empty string. -/
def lbSSLCert (ls : List ListenerDescription) : String :=
  ls.foldl
    (fun acc l =>
      match l.sslCertificateId with
      | some c => c
      | none => acc)
    ""

/-- The LoadBalancer model built from one description (lb package,
LoadBalancers loop body). -/
def toLoadBalancer (d : LBDescription) : LoadBalancer :=
  { name := d.name,
    dnsName := d.dnsName,
    external := d.scheme == schemeExternal,
    sslCert := lbSSLCert d.listenerDescriptions,
    instancePort := lbInstancePort d.listenerDescriptions,
    tags := d.tags }

/-- The load balancers one page contributes: those whose tags contain the
filter. -/
def processPage (tags : List (String × String)) (p : Page) : List LoadBalancer :=
  (p.descriptions.filter (fun d => containsTags tags d.tags)).map toLoadBalancer

/-- ELBManager.LoadBalancers (lb package): page through
DescribeLoadBalancers, passing the previous marker back; stop on a page
with no descriptions, and after a page whose marker is absent or empty;
collect from each processed page the load balancers whose tags contain the
filter. The backend is modelled as the sequence of responses it returns to
the successive describe calls. -/
def loadBalancers (tags : List (String × String)) : List Page → List LoadBalancer
  | [] => []
  | p :: rest =>
    if p.descriptions.isEmpty then []
    else
      match p.nextMarker with
      | none => processPage tags p
      | some m =>
        if m = "" then processPage tags p
        else processPage tags p ++ loadBalancers tags rest

/-- The pages the loop actually fetches: up to and including the first page
with no descriptions or with an absent or empty marker. -/
def pagesFetched : List Page → List Page
  | [] => []
  | p :: rest =>
    if p.descriptions.isEmpty then [p]
    else
      match p.nextMarker with
      | none => [p]
      | some m => if m = "" then [p] else p :: pagesFetched rest

/-- Every description the backend reported on the fetched pages. -/
def reportedDescs (pages : List Page) : List LBDescription :=
  ((pagesFetched pages).map (fun p => p.descriptions)).flatten

/-- Follows the words of the claim, not the code: pagination stops exactly
at the first absent or empty continuation marker, and every page before
that point contributes its matching load balancers. -/
def claimPagesFetched : List Page → List Page
  | [] => []
  | p :: rest =>
    match p.nextMarker with
    | none => [p]
    | some m => if m = "" then [p] else p :: claimPagesFetched rest

/-- The result the claim describes: every fetched page processed. -/
def claimLoadBalancers (tags : List (String × String)) (pages : List Page) :
    List LoadBalancer :=
  ((claimPagesFetched pages).map (processPage tags)).flatten

/-- The HTTP listener on port 80 forwarding to the instance port. -/
def httpListener (port : Int) : Listener :=
  { instancePort := port, loadBalancerPort := 80, protocol := "http",
    instanceProtocol := "http", sslCertificateId := none }

/-- The HTTPS listener on port 443 carrying the certificate, forwarding to
the instance port. -/
def httpsListener (port : Int) (certID : String) : Listener :=
  { instancePort := port, loadBalancerPort := 443, protocol := "https",
    instanceProtocol := "http", sslCertificateId := some certID }

/-- C5: the backend create call receives exactly the listener set of
elbListeners: the HTTP listener on port 80 to the instance port always; the
HTTPS listener on port 443 with the certificate, also to the instance port,
present exactly when the certificate is non-empty; and nothing else. -/
theorem C5_createLoadBalancer_listeners (m : ELBManager) (b : ELBCreateBackend)
    (o : CreateLoadBalancerOpts) :
    (createLoadBalancer m b o).2.head? =
      some (ELBCall.createCall (createLoadBalancerInput m o))
    ∧ (createLoadBalancerInput m o).listeners = elbListeners o.instancePort o.sslCert
    ∧ httpListener o.instancePort ∈ elbListeners o.instancePort o.sslCert
    ∧ (o.sslCert ≠ "" ↔
        httpsListener o.instancePort o.sslCert ∈ elbListeners o.instancePort o.sslCert)
    ∧ (∀ l ∈ elbListeners o.instancePort o.sslCert,
        l = httpListener o.instancePort ∨ l = httpsListener o.instancePort o.sslCert) := by
  refine ⟨?_, rfl, ?_, ?_, ?_⟩
  · cases hc : b.createResult with
    | error e => simp [createLoadBalancer, hc]
    | ok d =>
      cases hm : b.modifyResult with
      | some e => simp [createLoadBalancer, hc, hm]
      | none => simp [createLoadBalancer, hc, hm]
  · by_cases hssl : o.sslCert = "" <;>
      simp [elbListeners, hssl, httpListener]
  · by_cases hssl : o.sslCert = "" <;>
      simp [elbListeners, hssl, httpListener, httpsListener]
  · intro l hl
    by_cases hssl : o.sslCert = "" <;>
      simp [elbListeners, hssl, httpListener, httpsListener] at hl <;>
      tauto

/-- C5 witness: the characterization applied at a concrete manager, backend
and options with a certificate, extracting the presence of the HTTPS
listener. -/
theorem C5_createLoadBalancer_listeners_witness :
    httpsListener 8080 "cert-arn" ∈ elbListeners 8080 "cert-arn" :=
  ((C5_createLoadBalancer_listeners
      { internalSecurityGroupID := "sg-int", externalSecurityGroupID := "sg-ext",
        internalSubnetIDs := ["s1"], externalSubnetIDs := ["s2"],
        freshName := "n1" }
      { createResult := Except.ok "dns", modifyResult := none }
      { external := true, instancePort := 8080, sslCert := "cert-arn",
        tags := [] }).2.2.2.1).mp (by decide)

/-- C6: when the backend create succeeds but the attribute update fails,
CreateLoadBalancer returns that error and no load balancer value, even
though the create call was already made. -/
theorem C6_createLoadBalancer_modify_failure (m : ELBManager) (b : ELBCreateBackend)
    (o : CreateLoadBalancerOpts) (d : String) (e : GoErr)
    (hc : b.createResult = Except.ok d) (hm : b.modifyResult = some e) :
    (createLoadBalancer m b o).1 = Except.error e
    ∧ ELBCall.createCall (createLoadBalancerInput m o) ∈ (createLoadBalancer m b o).2 := by
  constructor
  · simp [createLoadBalancer, hc, hm]
  · simp [createLoadBalancer, hc, hm]

/-- C6 witness: the theorem at a concrete backend whose attribute update
fails. -/
theorem C6_createLoadBalancer_modify_failure_witness :
    (createLoadBalancer
      { internalSecurityGroupID := "sg-int", externalSecurityGroupID := "sg-ext",
        internalSubnetIDs := ["s1"], externalSubnetIDs := ["s2"],
        freshName := "n1" }
      { createResult := Except.ok "dns",
        modifyResult := some (GoErr.awsErr "throttled") }
      { external := false, instancePort := 9000, sslCert := "", tags := [] }).1 =
      Except.error (GoErr.awsErr "throttled") :=
  (C6_createLoadBalancer_modify_failure _ _ _ "dns" (GoErr.awsErr "throttled")
    rfl rfl).1

theorem loadBalancers_eq_filter (tags : List (String × String)) (pages : List Page) :
    loadBalancers tags pages =
      ((reportedDescs pages).filter (fun d => containsTags tags d.tags)).map
        toLoadBalancer := by
  induction pages with
  | nil => rfl
  | cons p rest ih =>
    by_cases hd : p.descriptions.isEmpty
    · have hnil : p.descriptions = [] := by simpa [List.isEmpty_iff] using hd
      simp [loadBalancers, hd, reportedDescs, pagesFetched, hnil]
    · cases hm : p.nextMarker with
      | none =>
        simp [loadBalancers, hd, hm, reportedDescs, pagesFetched, processPage]
      | some mk =>
        by_cases hmk : mk = ""
        · simp [loadBalancers, hd, hm, hmk, reportedDescs, pagesFetched, processPage]
        · simp only [loadBalancers, hd, hm, hmk, reportedDescs, pagesFetched,
            if_neg, if_false, Bool.false_eq_true, processPage]
          simp only [ih, reportedDescs, List.map_cons, List.flatten_cons,
            List.filter_append, List.map_append, processPage]

theorem containsTags_iff (f t : List (String × String)) :
    containsTags f t = true ↔ ∀ kv ∈ f, kv ∈ t := by
  simp only [containsTags, containsTag, List.all_eq_true, List.any_eq_true,
    Bool.and_eq_true, beq_iff_eq]
  constructor
  · intro h kv hkv
    obtain ⟨t2, ht2, h1, h2⟩ := h kv hkv
    have : kv = t2 := Prod.ext h1 h2
    rw [this]
    exact ht2
  · intro h kv hkv
    exact ⟨kv, h kv hkv, rfl, rfl⟩

/-- C7: LoadBalancers returns exactly the reported load balancers whose tag
set contains every pair of the filter; the empty filter keeps everything; a
load balancer without listeners is returned with a zero instance port and
an empty certificate. -/
theorem C7_loadBalancers_filter :
    (∀ (tags : List (String × String)) (pages : List Page),
      loadBalancers tags pages =
        ((reportedDescs pages).filter (fun d => containsTags tags d.tags)).map
          toLoadBalancer)
    ∧ (∀ f t : List (String × String), containsTags f t = true ↔ ∀ kv ∈ f, kv ∈ t)
    ∧ (∀ pages : List Page,
        loadBalancers [] pages = (reportedDescs pages).map toLoadBalancer)
    ∧ (∀ d : LBDescription, d.listenerDescriptions = [] →
        (toLoadBalancer d).instancePort = 0 ∧ (toLoadBalancer d).sslCert = "") := by
  refine ⟨loadBalancers_eq_filter, containsTags_iff, ?_, ?_⟩
  · intro pages
    rw [loadBalancers_eq_filter]
    congr 1
    apply List.filter_eq_self.mpr
    intro d _
    rfl
  · intro d hd
    simp [toLoadBalancer, hd, lbInstancePort, lbSSLCert]

/-- A concrete description with one listener and one tag. -/
def taggedDesc : LBDescription :=
  { name := "lb1", dnsName := "lb1.example", scheme := "internet-facing",
    listenerDescriptions := [{ instancePort := 8080, sslCertificateId := none }],
    tags := [("App", "acme"), ("ProcessType", "web")] }

/-- A concrete description without listeners and without matching tags. -/
def bareDesc : LBDescription :=
  { name := "lb2", dnsName := "lb2.example", scheme := "internal",
    listenerDescriptions := [], tags := [] }

/-- C7 witness: the theorem evaluated on one concrete page holding a
matching and a non-matching load balancer. -/
theorem C7_loadBalancers_filter_witness :
    loadBalancers [("App", "acme")]
        [{ descriptions := [taggedDesc, bareDesc], nextMarker := none }] =
      [toLoadBalancer taggedDesc]
    ∧ (toLoadBalancer bareDesc).instancePort = 0
    ∧ (toLoadBalancer bareDesc).sslCert = "" := by
  refine ⟨?_, ?_, ?_⟩
  · rw [C7_loadBalancers_filter.1 [("App", "acme")]
      [{ descriptions := [taggedDesc, bareDesc], nextMarker := none }]]
    decide
  · exact (C7_loadBalancers_filter.2.2.2 bareDesc rfl).1
  · exact (C7_loadBalancers_filter.2.2.2 bareDesc rfl).2

/-- A described load balancer sitting on the second page. -/
def lateDesc : LBDescription :=
  { name := "late", dnsName := "late.example", scheme := "internal",
    listenerDescriptions := [], tags := [] }

/-- A backend response sequence whose first page is empty but carries a
non-empty continuation marker, with a further load balancer on the second
page. -/
def emptyFirstPages : List Page :=
  [{ descriptions := [], nextMarker := some "next" },
   { descriptions := [lateDesc], nextMarker := none }]

/-- C8 counterexample: on a backend whose first page is empty but whose
marker announces another page, the code stops early and drops the second
page, while the claim (stop exactly on an absent or empty marker, every
earlier page contributes) would keep it. -/
theorem C8_pagination_counterexample :
    loadBalancers [] emptyFirstPages ≠ claimLoadBalancers [] emptyFirstPages
    ∧ toLoadBalancer lateDesc ∈ claimLoadBalancers [] emptyFirstPages
    ∧ toLoadBalancer lateDesc ∉ loadBalancers [] emptyFirstPages := by
  refine ⟨?_, ?_, ?_⟩ <;> decide

theorem loadBalancers_eq_flatten (tags : List (String × String)) (pages : List Page) :
    loadBalancers tags pages = ((pagesFetched pages).map (processPage tags)).flatten := by
  induction pages with
  | nil => rfl
  | cons p rest ih =>
    by_cases hd : p.descriptions.isEmpty
    · have hnil : p.descriptions = [] := by simpa [List.isEmpty_iff] using hd
      simp [loadBalancers, hd, pagesFetched, processPage, hnil]
    · cases hm : p.nextMarker with
      | none => simp [loadBalancers, hd, hm, pagesFetched]
      | some mk =>
        by_cases hmk : mk = ""
        · simp [loadBalancers, hd, hm, hmk, pagesFetched]
        · simp [loadBalancers, hd, hm, hmk, pagesFetched, ih]

/-- C8 (amended): the loop stops fetching when the backend returns an absent
or empty continuation marker, and also when it returns a page with no load
balancer descriptions; every page fetched before stopping is processed and
contributes its matching load balancers, in order. -/
theorem C8_pagination_amended (tags : List (String × String)) (p : Page)
    (rest : List Page) :
    (p.descriptions = [] → loadBalancers tags (p :: rest) = [])
    ∧ ((p.nextMarker = none ∨ p.nextMarker = some "") →
        loadBalancers tags (p :: rest) = processPage tags p)
    ∧ (∀ mk, p.descriptions ≠ [] → p.nextMarker = some mk → mk ≠ "" →
        loadBalancers tags (p :: rest) =
          processPage tags p ++ loadBalancers tags rest)
    ∧ (∀ pages : List Page,
        loadBalancers tags pages =
          ((pagesFetched pages).map (processPage tags)).flatten) := by
  refine ⟨?_, ?_, ?_, loadBalancers_eq_flatten tags⟩
  · intro h
    simp [loadBalancers, h]
  · intro h
    by_cases hd : p.descriptions.isEmpty
    · have hnil : p.descriptions = [] := by simpa [List.isEmpty_iff] using hd
      simp [loadBalancers, hd, processPage, hnil]
    · rcases h with h | h <;> simp [loadBalancers, hd, h]
  · intro mk hd hm hmk
    have hd2 : p.descriptions.isEmpty = false := by
      cases hl : p.descriptions with
      | nil => exact absurd hl hd
      | cons a l => simp [hl]
    simp [loadBalancers, hd2, hm, hmk]

/-- C8 witness: the amended characterization applied at a two-page backend
with a non-empty first page and live marker. -/
theorem C8_pagination_amended_witness :
    loadBalancers []
        [{ descriptions := [taggedDesc], nextMarker := some "mk" },
         { descriptions := [bareDesc], nextMarker := none }] =
      processPage [] { descriptions := [taggedDesc], nextMarker := some "mk" } ++
        loadBalancers [] [{ descriptions := [bareDesc], nextMarker := none }] :=
  (C8_pagination_amended []
      { descriptions := [taggedDesc], nextMarker := some "mk" }
      [{ descriptions := [bareDesc], nextMarker := none }]).2.2.1
    "mk" (by decide) rfl (by decide)

/-! Configuration validation: validateLoadBalancedConfig (ecs.go 149-177)
and NewLoadBalancedScheduler (ecs.go 107-147). -/

/-- Config (ecs.go 53-80), without the AWS client configuration. -/
structure Config where
  cluster : String
  serviceRole : String
  vpc : String
  zoneID : String
  internalSecurityGroupID : String
  externalSecurityGroupID : String
  internalSubnetIDs : List String
  externalSubnetIDs : List String
deriving DecidableEq

/-- The error message naming a missing required field. -/
def requiredMsg (n : String) : String := n ++ " is required"

/-- validateLoadBalancedConfig (ecs.go 149-177): the first missing field, in
source order, as an error message; none when all required fields are
present. -/
def validateLoadBalancedConfig (c : Config) : Option String :=
  if c.cluster = "" then some (requiredMsg "Cluster")
  else if c.serviceRole = "" then some (requiredMsg "ServiceRole")
  else if c.zoneID = "" then some (requiredMsg "ZoneID")
  else if c.internalSecurityGroupID = "" then some (requiredMsg "InternalSecurityGroupID")
  else if c.externalSecurityGroupID = "" then some (requiredMsg "ExternalSecurityGroupID")
  else if c.internalSubnetIDs.length = 0 then some (requiredMsg "InternalSubnetIDs")
  else if c.externalSubnetIDs.length = 0 then some (requiredMsg "ExternalSubnetIDs")
  else none

/-- The construction steps NewLoadBalancedScheduler performs after
validation passes: building the ECS client, the ELB manager and the
nameserver (all local constructions, no backend call). -/
inductive BuildStep where
  | newClient
  | newELBManager
  | newNameserver
deriving DecidableEq

/-- The scheduler value NewLoadBalancedScheduler returns, reduced to the
configuration it keeps. -/
structure SchedulerHandle where
  cluster : String
deriving DecidableEq

/-- NewLoadBalancedScheduler (ecs.go 107-147): validate first; on a missing
field return the validation error having constructed nothing; otherwise
build the client, ELB manager and nameserver and return the scheduler.
Returns the result and the construction steps performed. -/
def newLoadBalancedScheduler (c : Config) :
    Except String SchedulerHandle × List BuildStep :=
  match validateLoadBalancedConfig c with
  | some msg => (Except.error msg, [])
  | none =>
    (Except.ok { cluster := c.cluster },
      [BuildStep.newClient, BuildStep.newELBManager, BuildStep.newNameserver])

/-- C9: construction fails exactly on a missing required field, naming the
first missing one in source order, before any client is constructed (the
step trace is empty on failure); with every field present validation
passes. -/
theorem C9_validateLoadBalancedConfig (c : Config) :
    (validateLoadBalancedConfig c = none ↔
      (c.cluster ≠ "" ∧ c.serviceRole ≠ "" ∧ c.zoneID ≠ "" ∧
        c.internalSecurityGroupID ≠ "" ∧ c.externalSecurityGroupID ≠ "" ∧
        c.internalSubnetIDs ≠ [] ∧ c.externalSubnetIDs ≠ []))
    ∧ (c.cluster = "" →
        validateLoadBalancedConfig c = some (requiredMsg "Cluster"))
    ∧ (c.cluster ≠ "" → c.serviceRole = "" →
        validateLoadBalancedConfig c = some (requiredMsg "ServiceRole"))
    ∧ (c.cluster ≠ "" → c.serviceRole ≠ "" → c.zoneID = "" →
        validateLoadBalancedConfig c = some (requiredMsg "ZoneID"))
    ∧ (c.cluster ≠ "" → c.serviceRole ≠ "" → c.zoneID ≠ "" →
        c.internalSecurityGroupID = "" →
        validateLoadBalancedConfig c = some (requiredMsg "InternalSecurityGroupID"))
    ∧ (c.cluster ≠ "" → c.serviceRole ≠ "" → c.zoneID ≠ "" →
        c.internalSecurityGroupID ≠ "" → c.externalSecurityGroupID = "" →
        validateLoadBalancedConfig c = some (requiredMsg "ExternalSecurityGroupID"))
    ∧ (c.cluster ≠ "" → c.serviceRole ≠ "" → c.zoneID ≠ "" →
        c.internalSecurityGroupID ≠ "" → c.externalSecurityGroupID ≠ "" →
        c.internalSubnetIDs = [] →
        validateLoadBalancedConfig c = some (requiredMsg "InternalSubnetIDs"))
    ∧ (c.cluster ≠ "" → c.serviceRole ≠ "" → c.zoneID ≠ "" →
        c.internalSecurityGroupID ≠ "" → c.externalSecurityGroupID ≠ "" →
        c.internalSubnetIDs ≠ [] → c.externalSubnetIDs = [] →
        validateLoadBalancedConfig c = some (requiredMsg "ExternalSubnetIDs"))
    ∧ (∀ msg, validateLoadBalancedConfig c = some msg →
        newLoadBalancedScheduler c = (Except.error msg, [])) := by
  refine ⟨?_, ?_, ?_, ?_, ?_, ?_, ?_, ?_, ?_⟩
  · simp only [validateLoadBalancedConfig, List.length_eq_zero]
    constructor
    · intro h
      by_cases h1 : c.cluster = "" <;> by_cases h2 : c.serviceRole = "" <;>
        by_cases h3 : c.zoneID = "" <;> by_cases h4 : c.internalSecurityGroupID = "" <;>
        by_cases h5 : c.externalSecurityGroupID = "" <;>
        by_cases h6 : c.internalSubnetIDs = [] <;>
        by_cases h7 : c.externalSubnetIDs = [] <;>
        simp [h1, h2, h3, h4, h5, h6, h7] at h ⊢
    · rintro ⟨h1, h2, h3, h4, h5, h6, h7⟩
      simp [h1, h2, h3, h4, h5, h6, h7]
  · intro h1
    simp [validateLoadBalancedConfig, h1]
  · intro h1 h2
    simp [validateLoadBalancedConfig, h1, h2]
  · intro h1 h2 h3
    simp [validateLoadBalancedConfig, h1, h2, h3]
  · intro h1 h2 h3 h4
    simp [validateLoadBalancedConfig, h1, h2, h3, h4]
  · intro h1 h2 h3 h4 h5
    simp [validateLoadBalancedConfig, h1, h2, h3, h4, h5]
  · intro h1 h2 h3 h4 h5 h6
    simp [validateLoadBalancedConfig, h1, h2, h3, h4, h5, h6]
  · intro h1 h2 h3 h4 h5 h6 h7
    simp [validateLoadBalancedConfig, h1, h2, h3, h4, h5, h6, h7]
  · intro msg h
    simp [newLoadBalancedScheduler, h]

/-- A configuration missing only its zone id. -/
def noZoneConfig : Config :=
  { cluster := "default", serviceRole := "ecsServiceRole", vpc := "vpc-1",
    zoneID := "", internalSecurityGroupID := "sg-1",
    externalSecurityGroupID := "sg-2", internalSubnetIDs := ["sub-1"],
    externalSubnetIDs := ["sub-2"] }

/-- C9 witness: the theorem applied to a configuration missing its zone id;
construction fails with the message naming it and performs no step. -/
theorem C9_validateLoadBalancedConfig_witness :
    validateLoadBalancedConfig noZoneConfig = some (requiredMsg "ZoneID")
    ∧ newLoadBalancedScheduler noZoneConfig = (Except.error (requiredMsg "ZoneID"), []) :=
  ⟨(C9_validateLoadBalancedConfig noZoneConfig).2.2.2.1
      (by decide) (by decide) rfl,
   (C9_validateLoadBalancedConfig noZoneConfig).2.2.2.2.2.2.2.2
      (requiredMsg "ZoneID")
      ((C9_validateLoadBalancedConfig noZoneConfig).2.2.2.1
        (by decide) (by decide) rfl)⟩

end Empire
